import Mathlib

/-!
Verification of the real-time dispatch relay of the ng-taxi repository.

The relay lives in `src/trips/consumers.py` (`TaxiConsumer`), a Django
Channels consumer.  We shallowly embed it: each `async` method becomes a
pure Lean function that, instead of performing channel-layer and transport
calls, returns the ordered list of effects it would perform
(`group_add`, `group_discard`, `group_send`, `send_json`, `accept`,
`close`).  Python exceptions become `Except`.  JSON message bodies are a
small inductive `JVal`.

`trips/serializers.py` and `trips/models.py` are not under `src/`
(only their callers and the tests are), so `TripSerializer` validation,
`Trip` creation defaults and `NestedTripSerializer` rendering are modelled
from the spec; each such definition carries a doc comment saying so.
-/

namespace Taxi

/-- A small JSON value type for wire envelopes (`{type, data}` objects and
their payloads). -/
inductive JVal where
  | null : JVal
  | str : String → JVal
  | num : Nat → JVal
  | obj : List (String × JVal) → JVal

/-- Field lookup in a JSON object, as Python's `content.get(key)`:
`none` plays the role of Python's `None` (missing key or non-object). -/
def jget (j : JVal) (key : String) : Option JVal :=
  match j with
  | JVal.obj fields =>
    match fields.find? (fun p => p.fst = key) with
    | some p => some p.snd
    | none => none
  | _ => none

/-- Trip status. Modelled from the spec: `trips/models.py` is not under
`src/`; the spec gives statuses `REQUESTED → IN_PROGRESS → terminal states
such as COMPLETED/CANCELLED`. -/
inductive TripStatus where
  | REQUESTED : TripStatus
  | IN_PROGRESS : TripStatus
  | COMPLETED : TripStatus
  | CANCELLED : TripStatus
deriving DecidableEq

/-- Wire rendering of a status, as the tests observe it
(`response_data['status'] == 'REQUESTED'`). -/
def TripStatus.render : TripStatus → String
  | TripStatus.REQUESTED => "REQUESTED"
  | TripStatus.IN_PROGRESS => "IN_PROGRESS"
  | TripStatus.COMPLETED => "COMPLETED"
  | TripStatus.CANCELLED => "CANCELLED"

/-- A trip row. Modelled from the spec: `trips/models.py` is not under
`src/`; the spec's Trip has an identifier, pick-up and drop-off locations,
a status, a rider reference and a driver reference (absent until
accepted). -/
structure Trip where
  id : Nat
  pick_up_address : String
  drop_off_address : String
  status : TripStatus
  rider : Option Nat
  driver : Option Nat
deriving DecidableEq

/-- A terminal trip status per the spec's lifecycle. -/
def TripStatus.isTerminal : TripStatus → Bool
  | TripStatus.COMPLETED => true
  | TripStatus.CANCELLED => true
  | _ => false

/-- The trip table plus the next fresh primary key. -/
structure TripDb where
  nextId : Nat
  trips : List Trip
deriving DecidableEq

/-- A connected user as the consumer sees it: `self.scope['user']`.
`groups` is the ordered list of names of the user's Django auth groups,
so `user.groups.first()` is `groups.head?`. -/
structure User where
  id : Nat
  isAnonymous : Bool
  groups : List String
deriving DecidableEq

/-- Python exceptions the embedded methods can raise. -/
inductive PyError where
  /-- `rest_framework.exceptions.ValidationError`, raised by
  `serializer.is_valid(raise_exception=True)`. -/
  | validationError : PyError
  /-- `AttributeError`: `user.groups.first()` is `None` and `.name` is
  dereferenced on it. -/
  | attributeError : PyError
deriving DecidableEq

/-- One observable effect of a consumer method: a channel-layer or
transport call, in the order the Python code performs them. -/
inductive Effect where
  | group_add (group : String) (channel : String) : Effect
  | group_discard (group : String) (channel : String) : Effect
  | group_send (group : String) (message : JVal) : Effect
  | send_json (message : JVal) : Effect
  | accept : Effect
  | close : Effect

/-- `TaxiConsumer._get_user_group`: `user.groups.first().name`.
`user.groups.first()` yields `none` when the user belongs to no group;
the Python then raises `AttributeError` on `.name`, which the callers
surface through `Except`. -/
def _get_user_group (user : User) : Option String :=
  user.groups.head?

/-- `TaxiConsumer.connect`: close anonymous users; otherwise resolve the
role group, add drivers to the `drivers` channel group, and accept. -/
def connect (user : User) (channel_name : String) : Except PyError (List Effect) :=
  if user.isAnonymous then
    Except.ok [Effect.close]
  else
    match _get_user_group user with
    | none => Except.error PyError.attributeError
    | some user_group =>
      if user_group = "driver" then
        Except.ok [Effect.group_add "drivers" channel_name, Effect.accept]
      else
        Except.ok [Effect.accept]

/-- `TaxiConsumer.disconnect`: close anonymous users; otherwise resolve
the role group and remove drivers from the `drivers` group.
`super().disconnect(code)` is a no-op hook. -/
def disconnect (user : User) (channel_name : String) : Except PyError (List Effect) :=
  if user.isAnonymous then
    Except.ok [Effect.close]
  else
    match _get_user_group user with
    | none => Except.error PyError.attributeError
    | some user_group =>
      if user_group = "driver" then
        Except.ok [Effect.group_discard "drivers" channel_name]
      else
        Except.ok []

/-- Modelled from the spec: `trips/serializers.py` (`TripSerializer`) is
not under `src/`.  Per the spec, creation "fails with `ValidationError`
if required fields are missing or malformed"; required fields are the
pick-up and drop-off addresses and the rider reference seen on the wire
in the tests, and a created trip's status is `REQUESTED` with no driver. -/
def tripSerializerCreate (db : TripDb) (data : Option JVal) :
    Except PyError (Trip × TripDb) :=
  match data with
  | some payload =>
    match jget payload "pick_up_address", jget payload "drop_off_address",
          jget payload "rider" with
    | some (JVal.str pu), some (JVal.str dof), some (JVal.num r) =>
      let trip : Trip :=
        { id := db.nextId, pick_up_address := pu, drop_off_address := dof,
          status := TripStatus.REQUESTED, rider := some r, driver := none }
      Except.ok (trip, { nextId := db.nextId + 1, trips := trip :: db.trips })
    | _, _, _ => Except.error PyError.validationError
  | none => Except.error PyError.validationError

/-- `TaxiConsumer._create_trip`: validate and persist via `TripSerializer`
(the serializer itself is spec-modelled, see `tripSerializerCreate`). -/
def _create_trip (db : TripDb) (data : Option JVal) :
    Except PyError (Trip × TripDb) :=
  tripSerializerCreate db data

/-- `TaxiConsumer._get_trip_data`: `NestedTripSerializer(trip).data`.
Modelled from the spec: `trips/serializers.py` is not under `src/`; the
rendering is the trip's externally-rendered representation, with the id
in string form (the tests use `response_data['id']` as a group name and
the spec says trip group names are "string form of its id"). -/
def _get_trip_data (trip : Trip) : JVal :=
  JVal.obj
    [ ("id", JVal.str (toString trip.id)),
      ("pick_up_address", JVal.str trip.pick_up_address),
      ("drop_off_address", JVal.str trip.drop_off_address),
      ("status", JVal.str trip.status.render),
      ("rider", match trip.rider with
                | some r => JVal.num r
                | none => JVal.null),
      ("driver", match trip.driver with
                 | some d => JVal.num d
                 | none => JVal.null) ]

/-- `TaxiConsumer.create_trip`: persist the trip from `message.get('data')`,
then broadcast its rendering to the `drivers` group and reply to the
sender with the same payload.  A `ValidationError` from `_create_trip`
propagates: no effect has been performed when it is raised. -/
def create_trip (db : TripDb) (message : JVal) :
    Except PyError (TripDb × List Effect) :=
  match _create_trip db (jget message "data") with
  | Except.error e => Except.error e
  | Except.ok (trip, db') =>
    let trip_data := _get_trip_data trip
    let out := JVal.obj [("type", JVal.str "echo.message"), ("data", trip_data)]
    Except.ok (db', [Effect.group_send "drivers" out, Effect.send_json out])

/-- `TaxiConsumer.echo_message`: `self.send_json(message)` — re-emit the
inbound envelope verbatim to the sending session. -/
def echo_message (message : JVal) : List Effect :=
  [Effect.send_json message]

/-- `TaxiConsumer.receive_json`: dispatch on `content.get('type')`;
only `create.trip` and `echo.message` are handled, anything else falls
through with no operation. -/
def receive_json (db : TripDb) (content : JVal) :
    Except PyError (TripDb × List Effect) :=
  match jget content "type" with
  | some (JVal.str "create.trip") => create_trip db content
  | some (JVal.str "echo.message") => Except.ok (db, echo_message content)
  | _ => Except.ok (db, [])

/-- Channel-layer group membership: the set of (group, channel) pairs,
as maintained by the in-memory channel layer the tests configure. -/
def Membership := List (String × String)

/-- Apply one effect to the group-membership state; `group_add` and
`group_discard` are the only effects that touch membership. -/
def applyEffect (st : List (String × String)) : Effect → List (String × String)
  | Effect.group_add g c => if (g, c) ∈ st then st else (g, c) :: st
  | Effect.group_discard g c => st.filter (fun p => p ≠ (g, c))
  | _ => st

/-- Apply a method's effects in order to the membership state. -/
def applyEffects (st : List (String × String)) (efs : List Effect) :
    List (String × String) :=
  efs.foldl applyEffect st

/-- A broadcast to group `g` is delivered to channel `c` exactly when
`(g, c)` is in the membership snapshot at send time. -/
def receivesBroadcast (st : List (String × String)) (g c : String) : Prop :=
  (g, c) ∈ st

instance (st : List (String × String)) (g c : String) :
    Decidable (receivesBroadcast st g c) := by
  unfold receivesBroadcast
  infer_instance

/-! Theorems. -/

/-- Claim C6: a connect attempt by an anonymous identity closes the
connection and never accepts it, and the session joins no group: the
only effect is `close`. -/
theorem connect_anonymous_rejected (user : User) (ch : String)
    (h : user.isAnonymous = true) :
    connect user ch = Except.ok [Effect.close] ∧
    ∀ efs, connect user ch = Except.ok efs →
      Effect.accept ∉ efs ∧ ∀ g c, Effect.group_add g c ∉ efs := by
  have hc : connect user ch = Except.ok [Effect.close] := by
    simp [connect, h]
  refine ⟨hc, fun efs hefs => ?_⟩
  rw [hc] at hefs
  cases hefs
  constructor
  · simp
  · intro g c
    simp

/-- Witness for `connect_anonymous_rejected` at a concrete anonymous user. -/
theorem connect_anonymous_rejected_witness :
    connect ⟨3, true, []⟩ "chan" = Except.ok [Effect.close] :=
  (connect_anonymous_rejected ⟨3, true, []⟩ "chan" rfl).1

/-- Claim C8: an `echo.message` envelope is re-emitted verbatim to the
sending session only: the sole effect is `send_json` of the inbound
envelope itself, no group is messaged, and the trip table is unchanged. -/
theorem echo_message_verbatim (db : TripDb) (content : JVal)
    (h : jget content "type" = some (JVal.str "echo.message")) :
    receive_json db content = Except.ok (db, [Effect.send_json content]) ∧
    ∀ g m, Effect.group_send g m ∉ [Effect.send_json content] := by
  constructor
  · unfold receive_json
    rw [h]
    rfl
  · intro g m
    simp

/-- Witness for `echo_message_verbatim` at a concrete envelope. -/
theorem echo_message_verbatim_witness :
    receive_json ⟨1, []⟩
        (JVal.obj [("type", JVal.str "echo.message"),
                   ("data", JVal.str "This is a test message")])
      = Except.ok (⟨1, []⟩,
          [Effect.send_json
            (JVal.obj [("type", JVal.str "echo.message"),
                       ("data", JVal.str "This is a test message")])]) :=
  (echo_message_verbatim ⟨1, []⟩
      (JVal.obj [("type", JVal.str "echo.message"),
                 ("data", JVal.str "This is a test message")]) rfl).1

/-- Claim C9: an envelope whose `type` is none of the defined values
(`echo.message`, `create.trip`, `update.trip`) is silently ignored:
no reply, no group operation, no state change, no error. -/
theorem unknown_type_noop (db : TripDb) (content : JVal)
    (h1 : jget content "type" ≠ some (JVal.str "echo.message"))
    (h2 : jget content "type" ≠ some (JVal.str "create.trip"))
    (_h3 : jget content "type" ≠ some (JVal.str "update.trip")) :
    receive_json db content = Except.ok (db, []) := by
  unfold receive_json
  split
  · rename_i heq
    exact absurd heq h2
  · rename_i heq
    exact absurd heq h1
  · rfl

/-- Witness for `unknown_type_noop` at a concrete unknown envelope type. -/
theorem unknown_type_noop_witness :
    receive_json ⟨1, []⟩
        (JVal.obj [("type", JVal.str "some.other"), ("data", JVal.null)])
      = Except.ok (⟨1, []⟩, []) :=
  unknown_type_noop ⟨1, []⟩
    (JVal.obj [("type", JVal.str "some.other"), ("data", JVal.null)])
    (by simp [jget]) (by simp [jget]) (by simp [jget])

/-- Claim C10: for an authenticated user belonging to no auth group,
`_get_user_group` dereferences `.name` on `None`, so both `connect` and
`disconnect` raise `AttributeError` instead of completing; in particular
`connect` cannot succeed without at least one role group. -/
theorem connect_requires_role_group (user : User) (ch : String)
    (ha : user.isAnonymous = false) (hg : user.groups = []) :
    connect user ch = Except.error PyError.attributeError ∧
    disconnect user ch = Except.error PyError.attributeError ∧
    ∀ efs, connect user ch ≠ Except.ok efs := by
  have hc : connect user ch = Except.error PyError.attributeError := by
    simp [connect, _get_user_group, ha, hg]
  have hd : disconnect user ch = Except.error PyError.attributeError := by
    simp [disconnect, _get_user_group, ha, hg]
  refine ⟨hc, hd, fun efs h => ?_⟩
  rw [hc] at h
  cases h

/-- Witness for `connect_requires_role_group` at a concrete groupless
user. -/
theorem connect_requires_role_group_witness :
    connect ⟨7, false, []⟩ "chan" = Except.error PyError.attributeError :=
  (connect_requires_role_group ⟨7, false, []⟩ "chan" rfl rfl).1

/-- Claim C4: a session is in group `drivers` exactly while a driver is
connected: for a driver, `connect` performs `group_add` to `drivers`
before `accept`, and starting from an empty membership the session is in
`drivers` after connect and in no group after disconnect; for any other
role, `connect` performs no `group_add` at all, so riders are never added
to `drivers`. -/
theorem drivers_group_membership (user : User) (ch : String)
    (ha : user.isAnonymous = false) :
    (_get_user_group user = some "driver" →
      connect user ch = Except.ok [Effect.group_add "drivers" ch, Effect.accept] ∧
      disconnect user ch = Except.ok [Effect.group_discard "drivers" ch] ∧
      applyEffects [] [Effect.group_add "drivers" ch, Effect.accept]
        = [("drivers", ch)] ∧
      applyEffects [("drivers", ch)] [Effect.group_discard "drivers" ch] = []) ∧
    (∀ g, _get_user_group user = some g → g ≠ "driver" →
      connect user ch = Except.ok [Effect.accept] ∧
      ∀ grp c, Effect.group_add grp c ∉ [Effect.accept]) := by
  constructor
  · intro hdrv
    refine ⟨?_, ?_, ?_, ?_⟩
    · simp [connect, ha, hdrv]
    · simp [disconnect, ha, hdrv]
    · simp [applyEffects, applyEffect]
    · simp [applyEffects, applyEffect]
  · intro g hg hne
    refine ⟨?_, ?_⟩
    · simp [connect, ha, hg, hne]
    · intro grp c
      simp

/-- Witness for `drivers_group_membership` at a concrete driver session. -/
theorem drivers_group_membership_witness :
    connect ⟨1, false, ["driver"]⟩ "chan"
      = Except.ok [Effect.group_add "drivers" "chan", Effect.accept] :=
  ((drivers_group_membership ⟨1, false, ["driver"]⟩ "chan" rfl).1 rfl).1

/-- Claim C3: a `create.trip` envelope with a valid payload produces
exactly one broadcast to group `drivers` and exactly one direct reply to
the sender, both carrying the same rendered trip, and the created trip
is stored with status `REQUESTED` and no driver. -/
theorem create_trip_broadcast_and_reply (db : TripDb) (content payload : JVal)
    (pu dof : String) (r : Nat)
    (ht : jget content "type" = some (JVal.str "create.trip"))
    (hd : jget content "data" = some payload)
    (hpu : jget payload "pick_up_address" = some (JVal.str pu))
    (hdo : jget payload "drop_off_address" = some (JVal.str dof))
    (hr : jget payload "rider" = some (JVal.num r)) :
    ∃ trip : Trip,
      trip.status = TripStatus.REQUESTED ∧
      trip.driver = none ∧
      trip.rider = some r ∧
      receive_json db content
        = Except.ok
            ({ nextId := db.nextId + 1, trips := trip :: db.trips },
             [Effect.group_send "drivers"
                (JVal.obj [("type", JVal.str "echo.message"),
                           ("data", _get_trip_data trip)]),
              Effect.send_json
                (JVal.obj [("type", JVal.str "echo.message"),
                           ("data", _get_trip_data trip)])]) := by
  refine ⟨{ id := db.nextId, pick_up_address := pu, drop_off_address := dof,
            status := TripStatus.REQUESTED, rider := some r, driver := none },
          rfl, rfl, rfl, ?_⟩
  unfold receive_json
  rw [ht]
  simp only [create_trip, _create_trip, tripSerializerCreate, hd, hpu, hdo, hr]

/-- Witness for `create_trip_broadcast_and_reply` at the concrete payload
of the repository's `test_request_trip` test. -/
theorem create_trip_broadcast_and_reply_witness :
    ∃ trip : Trip,
      trip.status = TripStatus.REQUESTED ∧
      trip.driver = none ∧
      trip.rider = some 4 ∧
      receive_json ⟨1, []⟩
          (JVal.obj [("type", JVal.str "create.trip"),
                     ("data", JVal.obj [("pick_up_address", JVal.str "MX"),
                                        ("drop_off_address", JVal.str "GY"),
                                        ("rider", JVal.num 4)])])
        = Except.ok
            ({ nextId := 2, trips := [trip] },
             [Effect.group_send "drivers"
                (JVal.obj [("type", JVal.str "echo.message"),
                           ("data", _get_trip_data trip)]),
              Effect.send_json
                (JVal.obj [("type", JVal.str "echo.message"),
                           ("data", _get_trip_data trip)])]) :=
  create_trip_broadcast_and_reply ⟨1, []⟩
    (JVal.obj [("type", JVal.str "create.trip"),
               ("data", JVal.obj [("pick_up_address", JVal.str "MX"),
                                  ("drop_off_address", JVal.str "GY"),
                                  ("rider", JVal.num 4)])])
    (JVal.obj [("pick_up_address", JVal.str "MX"),
               ("drop_off_address", JVal.str "GY"),
               ("rider", JVal.num 4)])
    "MX" "GY" 4 rfl rfl rfl rfl rfl

/-- Claim C7: handling `create.trip` never changes group membership: any
successful run emits no `group_add` or `group_discard`, so the sender's
joined groups are exactly what they were before, and the only group
broadcast goes to `drivers`. -/
theorem create_trip_preserves_membership (db db' : TripDb) (content : JVal)
    (st : List (String × String)) (efs : List Effect)
    (ht : jget content "type" = some (JVal.str "create.trip"))
    (h : receive_json db content = Except.ok (db', efs)) :
    applyEffects st efs = st ∧
    (∀ g c, Effect.group_add g c ∉ efs) ∧
    (∀ g m, Effect.group_send g m ∈ efs → g = "drivers") := by
  have hc : create_trip db content = Except.ok (db', efs) := by
    unfold receive_json at h
    rw [ht] at h
    exact h
  unfold create_trip at hc
  cases hcc : _create_trip db (jget content "data") with
  | error e =>
    rw [hcc] at hc
    cases hc
  | ok pr =>
    obtain ⟨trip, db2⟩ := pr
    rw [hcc] at hc
    simp only [Except.ok.injEq, Prod.mk.injEq] at hc
    obtain ⟨-, hefs⟩ := hc
    subst hefs
    refine ⟨?_, ?_, ?_⟩
    · simp [applyEffects, applyEffect]
    · intro g c
      simp
    · intro g m hm
      simp only [List.mem_cons, List.mem_singleton] at hm
      rcases hm with h1 | h1 | h1
      · cases h1
        rfl
      · cases h1
      · cases h1

/-- Witness for `create_trip_preserves_membership` at a concrete
`create.trip` run, starting from a membership where the sender is in
`drivers`. -/
theorem create_trip_preserves_membership_witness :
    applyEffects [("drivers", "c0")]
        [Effect.group_send "drivers"
           (JVal.obj [("type", JVal.str "echo.message"),
                      ("data", _get_trip_data
                        { id := 1, pick_up_address := "MX",
                          drop_off_address := "GY",
                          status := TripStatus.REQUESTED,
                          rider := some 4, driver := none })]),
         Effect.send_json
           (JVal.obj [("type", JVal.str "echo.message"),
                      ("data", _get_trip_data
                        { id := 1, pick_up_address := "MX",
                          drop_off_address := "GY",
                          status := TripStatus.REQUESTED,
                          rider := some 4, driver := none })])]
      = [("drivers", "c0")] :=
  (create_trip_preserves_membership ⟨1, []⟩
      ⟨2, [{ id := 1, pick_up_address := "MX", drop_off_address := "GY",
             status := TripStatus.REQUESTED, rider := some 4, driver := none }]⟩
      (JVal.obj [("type", JVal.str "create.trip"),
                 ("data", JVal.obj [("pick_up_address", JVal.str "MX"),
                                    ("drop_off_address", JVal.str "GY"),
                                    ("rider", JVal.num 4)])])
      [("drivers", "c0")]
      [Effect.group_send "drivers"
         (JVal.obj [("type", JVal.str "echo.message"),
                    ("data", _get_trip_data
                      { id := 1, pick_up_address := "MX",
                        drop_off_address := "GY",
                        status := TripStatus.REQUESTED,
                        rider := some 4, driver := none })]),
       Effect.send_json
         (JVal.obj [("type", JVal.str "echo.message"),
                    ("data", _get_trip_data
                      { id := 1, pick_up_address := "MX",
                        drop_off_address := "GY",
                        status := TripStatus.REQUESTED,
                        rider := some 4, driver := none })])]
      rfl rfl).1

/-- Claim C1 (code evaluation): a rider who is the rider of a stored,
non-terminal trip with id 1 connects, yet `connect` — which never reads
the trip table at all — only accepts; the session is not made a member
of group "1", so a later broadcast to "1" does not reach it. -/
theorem connect_does_not_join_trip_group :
    let rider : User := ⟨5, false, ["rider"]⟩
    let trip : Trip := ⟨1, "A", "B", TripStatus.REQUESTED, some 5, none⟩
    trip.rider = some rider.id ∧
    trip.status.isTerminal = false ∧
    connect rider "chan" = Except.ok [Effect.accept] ∧
    ¬ receivesBroadcast (applyEffects [] [Effect.accept])
        (toString trip.id) "chan" := by
  refine ⟨rfl, rfl, rfl, ?_⟩
  simp [applyEffects, applyEffect, receivesBroadcast]

/-- Claim C2 (code evaluation): an `update.trip` envelope naming a stored
trip in status `REQUESTED` and a driver id falls through `receive_json`'s
dispatch — only `create.trip` and `echo.message` are matched — so nothing
is persisted and nothing is broadcast: the trip table is returned
unchanged and the effect list is empty. -/
theorem update_trip_silently_ignored :
    let db : TripDb := ⟨2, [⟨1, "A", "B", TripStatus.REQUESTED, some 5, none⟩]⟩
    let msg : JVal := JVal.obj
      [("type", JVal.str "update.trip"),
       ("data", JVal.obj [("id", JVal.str "1"),
                          ("status", JVal.str "IN_PROGRESS"),
                          ("driver", JVal.num 7)])]
    receive_json db msg = Except.ok (db, []) := by
  rfl

/-- A `create.trip` envelope whose payload is missing the required
`drop_off_address` field (and the rider), so `TripSerializer` validation
fails. -/
def invalidCreateMsg : JVal :=
  JVal.obj [("type", JVal.str "create.trip"),
            ("data", JVal.obj [("pick_up_address", JVal.str "MX")])]

/-- Claim C5 counterexample: on a malformed `create.trip` payload the
handler does not reply to the session with an error envelope — it
produces no successful outcome at all: the `ValidationError` raised by
`serializer.is_valid(raise_exception=True)` escapes `receive_json`
uncaught. -/
theorem create_trip_invalid_no_reply :
    receive_json ⟨1, []⟩ invalidCreateMsg
      = Except.error PyError.validationError ∧
    ∀ out : TripDb × List Effect,
      receive_json ⟨1, []⟩ invalidCreateMsg ≠ Except.ok out := by
  have h : receive_json ⟨1, []⟩ invalidCreateMsg
      = Except.error PyError.validationError := by rfl
  refine ⟨h, fun out hok => ?_⟩
  rw [h] at hok
  cases hok

/-- Claim C5 (amended): on a `create.trip` envelope whose payload fails
validation, the `ValidationError` raised inside `_create_trip` propagates
uncaught out of `receive_json`; no envelope of any kind is sent back to
the session and no other effect is performed, so the connection task
faults instead of replying with a relay-level error. -/
theorem create_trip_invalid_propagates (db : TripDb) (content : JVal)
    (ht : jget content "type" = some (JVal.str "create.trip"))
    (hv : _create_trip db (jget content "data")
            = Except.error PyError.validationError) :
    receive_json db content = Except.error PyError.validationError := by
  unfold receive_json
  rw [ht]
  unfold create_trip
  rw [hv]
  rfl

/-- Witness for `create_trip_invalid_propagates` at the concrete
malformed envelope. -/
theorem create_trip_invalid_propagates_witness :
    receive_json ⟨1, []⟩ invalidCreateMsg
      = Except.error PyError.validationError :=
  create_trip_invalid_propagates ⟨1, []⟩ invalidCreateMsg rfl rfl

end Taxi
